import Mathlib

/-!
Verification development for the FSSP debt-checking pipeline
(`src/api_client.py`, `src/utils.py`, `src/main.py`,
`src/debt_checker/api_client.py`, `src/debt_checker/utils.py`).

The Python code is shallowly embedded: pandas cells become the `Cell` type
(`pd.NA` is `Cell.na`), JSON bodies become `JVal`, Python exceptions become an
explicit `Except` channel, and the concurrent consuming loop of
`process_rows_concurrently` becomes a fold over the stream of task completions
in completion order.
-/

/-- Value stored in a tabular cell (a pandas cell or a CSV field).
`na` is `pd.NA`/`NaN`; `num` is a numeric value (Python floats are modelled as
rationals); `str` is a string value such as the `'TOKEN_NO_ACCESS'` sentinel. -/
inductive Cell where
  | num (q : Rat)
  | str (s : String)
  | na
deriving DecidableEq

/-- The `ProcessResult` dataclass of `debt_checker/utils.py` (lines 79-86) and
`utils.py` (lines 45-50): `index`, `number`, `debt_amount`, `error`.
`debt_amount` is a `Cell` because the code stores either a float, `None`, or
the token-error sentinel string in it (utils.py line 74, debt_checker line 130). -/
structure ProcessResult where
  index : Nat
  number : String
  debt_amount : Cell
  error : Option String
deriving DecidableEq

/-- One row of the input table as `process_row` reads it:
`number` is `str(row.iloc[0])` and `existing` is `row.get("Debt Amount", pd.NA)`. -/
structure InputRow where
  number : String
  existing : Cell
deriving DecidableEq

/-- One row of the reconciled output of `merge_temp_files`: only the `number`
and `Debt Amount` columns survive the final column drop. -/
structure MergedRow where
  number : String
  debtAmount : Cell
deriving DecidableEq

/-! ## JSON values and the fragments of Python semantics the API client uses -/

/-- A JSON value as returned by `response.json()`. -/
inductive JVal where
  | jnum (q : Rat)
  | jstr (s : String)
  | jbool (b : Bool)
  | jnull
  | jarr (xs : List JVal)
  | jobj (fields : List (String × JVal))

/-- Python exceptions distinguished by the `except` clauses of the source. -/
inductive PyExn where
  | keyError
  | indexError
  | valueError
  | typeError
  | jsonDecodeError
  | requestException
deriving DecidableEq

/-- Dictionary lookup: `data[k]` / `data.get(k)` on a JSON object body. -/
def jlookup : List (String × JVal) → String → Option JVal
  | [], _ => none
  | (k, v) :: rest, key => if k = key then some v else jlookup rest key

/-- A Python subscript: either an integer index or a string key. -/
inductive PyKey where
  | idx (n : Nat)
  | key (s : String)

/-- Python subscripting `x[k]` restricted to the shapes the source can reach:
list indexing raises `IndexError` out of range, dict lookup raises `KeyError`,
string indexing yields a one-character string, and other combinations raise
`TypeError` (dict with an int subscript raises `KeyError`). -/
def pySub : JVal → PyKey → Except PyExn JVal
  | .jarr xs, .idx n =>
    match xs.get? n with
    | some v => .ok v
    | none => .error .indexError
  | .jarr _, .key _ => .error .typeError
  | .jobj fs, .key s =>
    match jlookup fs s with
    | some v => .ok v
    | none => .error .keyError
  | .jobj _, .idx _ => .error .keyError
  | .jstr s, .idx n =>
    match s.data.get? n with
    | some c => .ok (.jstr (String.mk [c]))
    | none => .error .indexError
  | .jstr _, .key _ => .error .typeError
  | _, _ => .error .typeError

/-- Python `==` between a JSON value and the literals the source compares
against (the strings `'602'`/`'498'` and the ints `200`/`1`/`0`). Python
booleans compare equal to `1`/`0`; values of different non-numeric types
compare unequal. Container equality is not needed by the source. -/
def pyEq : JVal → JVal → Bool
  | .jnum a, .jnum b => a == b
  | .jnum a, .jbool b => a == (if b then (1 : Rat) else 0)
  | .jbool a, .jnum b => (if a then (1 : Rat) else 0) == b
  | .jbool a, .jbool b => a == b
  | .jstr a, .jstr b => a == b
  | .jnull, .jnull => true
  | _, _ => false

/-- Digit-string check used by the decimal parser. -/
def isDigits (l : List Char) : Bool := l.all (·.isDigit)

/-- Numeric value of a digit string. -/
def digitsVal (l : List Char) : Nat := l.foldl (fun a c => a * 10 + (c.toNat - 48)) 0

/-- Conversion of a string to a number, modelling Python `float(s)` on the
decimal forms the API produces (optional sign, integer part, optional
fraction); a non-numeric string fails, which the source turns into
`ValueError`. -/
def parseDecimal (s : String) : Option Rat :=
  let signSplit : Int × List Char :=
    match s.data with
    | '-' :: r => (-1, r)
    | '+' :: r => (1, r)
    | r => (1, r)
  let sgn := signSplit.1
  let cs := signSplit.2
  let ip := cs.takeWhile (· ≠ '.')
  let rest := cs.dropWhile (· ≠ '.')
  match rest with
  | [] =>
    if !ip.isEmpty && isDigits ip then some ((sgn : Rat) * (digitsVal ip : Nat)) else none
  | _ :: fp =>
    if (!ip.isEmpty || !fp.isEmpty) && isDigits ip && isDigits fp then
      some ((sgn : Rat) * ((digitsVal ip : Nat) + (digitsVal fp : Nat) / ((10 : Rat) ^ fp.length)))
    else none

/-- Python `float(x)` on a JSON value: numbers pass through, booleans coerce,
strings are parsed (`ValueError` on failure), anything else raises `TypeError`. -/
def pyFloat : JVal → Except PyExn Rat
  | .jnum q => .ok q
  | .jbool b => .ok (if b then 1 else 0)
  | .jstr s =>
    match parseDecimal s with
    | some q => .ok q
    | none => .error .valueError
  | _ => .error .typeError

/-- The outcome of the network layer for one HTTP attempt:
`raises` covers `requests.get`/`raise_for_status` raising a
`RequestException` (timeouts, connection errors, 4xx/5xx), `badJson` covers
`response.json()` raising `JSONDecodeError`, and `ok` carries the parsed
JSON object body. -/
inductive NetOutcome where
  | raises
  | badJson
  | ok (data : List (String × JVal))

/-- The expression `float(data["records"][0]["sum"])` shared by both API client
variants; each step may raise. -/
def extractSum (data : List (String × JVal)) : Except PyExn Rat :=
  match jlookup data "records" with
  | none => .error .keyError
  | some recs => do
    let r0 ← pySub recs (.idx 0)
    let s ← pySub r0 (.key "sum")
    pyFloat s

namespace DebtChecker

/-- The body of `_handle_api_response` in `debt_checker/api_client.py`
(lines 12-51). The only local `try` wraps the `float(...)` conversion and
catches `KeyError`, `ValueError`, `IndexError`; a missing `"message"` key in
the error branches raises `KeyError` out of this function (the log line
interpolates `data["message"]`), and a `TypeError` from the subscripting also
escapes. -/
def handle_api_response (data : List (String × JVal)) : Except PyExn Cell :=
  match jlookup data "error" with
  | some e =>
    if pyEq e (.jstr "602") then
      match jlookup data "message" with
      | some _ => .ok (.str "TOKEN_NO_ACCESS")
      | none => .error .keyError
    else if pyEq e (.jstr "498") then
      match jlookup data "message" with
      | some _ => .ok (.str "TOKEN_NO_MONEY")
      | none => .error .keyError
    else .ok .na
  | none =>
    if !(match jlookup data "status" with
         | some st => pyEq st (.jnum 200)
         | none => false) then
      .ok .na
    else if (match jlookup data "count" with
             | some c => pyEq c (.jnum 1)
             | none => false) then
      match extractSum data with
      | .ok q => .ok (.num q)
      | .error .keyError => .ok .na
      | .error .valueError => .ok .na
      | .error .indexError => .ok .na
      | .error e => .error e
    else if (match jlookup data "count" with
             | some c => pyEq c (.jnum 0)
             | none => false) then
      .ok (.num 0)
    else .ok .na

/-- The `try` block of `get_debt_amount` in `debt_checker/api_client.py`
(lines 86-92) before its handler: the request, `raise_for_status`, JSON
decoding, and `_handle_api_response`. -/
def tryBody (net : NetOutcome) : Except PyExn Cell :=
  match net with
  | .raises => .error .requestException
  | .badJson => .error .jsonDecodeError
  | .ok data => handle_api_response data

/-- The function `get_debt_amount` of `debt_checker/api_client.py`
(lines 66-96): any exception from the try block is caught by the blanket
`except Exception` (lines 94-96) and converted to `None`. -/
def get_debt_amount (net : NetOutcome) : Cell :=
  match tryBody net with
  | .ok v => v
  | .error _ => .na

end DebtChecker

namespace TopLevel

/-- Continuation of `get_debt_amount` in `api_client.py` after the error-code
check (lines 64-75): `data["status"]` raises `KeyError` if absent; when
`status == 200` and `count` is neither `1` nor `0` the function falls off the
end and returns `None`; the `float(...)` conversion is not locally guarded, so
its exceptions propagate to the function-level handlers. -/
def afterErrorCheck (data : List (String × JVal)) : Except PyExn Cell :=
  match jlookup data "status" with
  | none => .error .keyError
  | some st =>
    if pyEq st (.jnum 200) then
      match jlookup data "count" with
      | none => .error .keyError
      | some c =>
        if pyEq c (.jnum 1) then
          match extractSum data with
          | .ok q => .ok (.num q)
          | .error e => .error e
        else if pyEq c (.jnum 0) then .ok (.num 0)
        else .ok .na
    else .ok .na

/-- The `try` block of `get_debt_amount` in `api_client.py` (lines 44-75):
an unknown error code falls through to the status check. -/
def tryBody (net : NetOutcome) : Except PyExn Cell :=
  match net with
  | .raises => .error .requestException
  | .badJson => .error .jsonDecodeError
  | .ok data =>
    match jlookup data "error" with
    | some e =>
      if pyEq e (.jstr "602") then
        match jlookup data "message" with
        | some _ => .ok (.str "TOKEN_NO_ACCESS")
        | none => .error .keyError
      else if pyEq e (.jstr "498") then
        match jlookup data "message" with
        | some _ => .ok (.str "TOKEN_NO_MONEY")
        | none => .error .keyError
      else afterErrorCheck data
    | none => afterErrorCheck data

/-- The function-level handler chain of `api_client.py` `get_debt_amount`
(lines 76-96): `JSONDecodeError`, `RequestException`, `KeyError`, `ValueError`
and the blanket `except Exception` all return `None`. The result type keeps an
error channel so that "the wrapped call never raises" is a statement rather
than a typing artefact. -/
def get_debt_amount_exc (net : NetOutcome) : Except PyExn Cell :=
  match tryBody net with
  | .ok v => .ok v
  | .error .jsonDecodeError => .ok .na
  | .error .requestException => .ok .na
  | .error .keyError => .ok .na
  | .error .valueError => .ok .na
  | .error _ => .ok .na

/-- The value of one call of the top-level `get_debt_amount`. -/
def get_debt_amount (net : NetOutcome) : Cell :=
  match get_debt_amount_exc net with
  | .ok v => v
  | .error _ => .na

end TopLevel

/-! ## The tenacity retry decorator of `api_client.py` (lines 11-13) -/

/-- Attempt loop of `tenacity.retry(stop=stop_after_attempt(maxA), ...)`:
attempt `k` runs the wrapped callable; an exception triggers another attempt
until `maxA` attempts have been made, after which `RetryError` is raised
(modelled as `.error ()`); a returned value stops the loop. The second
component is the number of attempts actually made. -/
def tenacityGo (f : Nat → Except PyExn Cell) : Nat → Nat → Except Unit Cell × Nat
  | k, 0 => (.error (), k - 1)
  | k, fuel + 1 =>
    match f k with
    | .ok v => (.ok v, k)
    | .error _ => if fuel = 0 then (.error (), k) else tenacityGo f (k + 1) fuel

/-- The decorated call: `@retry(stop=stop_after_attempt(maxA), wait=...)`
applied to a per-attempt behaviour `f` (attempts numbered from 1). -/
def retryWrapped (maxA : Nat) (f : Nat → Except PyExn Cell) : Except Unit Cell × Nat :=
  tenacityGo f 1 maxA

/-! ## The batch pipeline -/

/-- The exceptions distinguished by the `except` clauses of `process_row`:
`requests.exceptions.RequestException` and everything else. -/
inductive ApiExn where
  | requestException (msg : String)
  | otherException (msg : String)

/-- The test `debt_amount in ("TOKEN_NO_ACCESS", "TOKEN_NO_MONEY")` of
`debt_checker/utils.py` line 127 / `utils.py` line 72. -/
def isTokenError (c : Cell) : Bool :=
  c == .str "TOKEN_NO_ACCESS" || c == .str "TOKEN_NO_MONEY"

/-- What one call of `process_row` does, beyond its return value: whether it
set the global stop flag, and whether it reached the API call at all. -/
structure RowStep where
  result : Option ProcessResult
  setsFlag : Bool
  apiCalled : Bool
deriving DecidableEq

namespace DebtChecker

/-- The worker function `process_row` of `debt_checker/utils.py`
(lines 89-147). `stopSet` is the value `stop_event.is_set()` returned at entry

line 110; `api` is the behaviour of the `get_debt_amount` call, with an
explicit exception channel because the `try` at lines 124-147 guards it. On a
token-error value the worker calls `stop_event.set()` and returns a
`ProcessResult` whose `debt_amount` field holds the sentinel string and whose
`error` field is `None` (line 130). -/
def process_row (stopSet : Bool) (index : Nat) (row : InputRow)
    (api : Except ApiExn Cell) : RowStep :=
  if stopSet then ⟨none, false, false⟩
  else if row.existing ≠ .na then ⟨none, false, false⟩
  else
    match api with
    | .ok v =>
      if isTokenError v then ⟨some ⟨index, row.number, v, none⟩, true, true⟩
      else ⟨some ⟨index, row.number, v, none⟩, false, true⟩
    | .error (.requestException _) =>
      ⟨some ⟨index, row.number, .na, some "NETWORK_ERROR"⟩, false, true⟩
    | .error (.otherException _) =>
      ⟨some ⟨index, row.number, .na, some "UNKNOWN_ERROR"⟩, false, true⟩

end DebtChecker

/-- One task of a pipeline run, in completion order: the row it was submitted
with, the stop-flag value its worker observed at entry, the behaviour of its
API call, and whether an external stop signal (SIGINT handler, which calls
`stop_event.set()`) is visible by the time the consuming loop examines this
completion. -/
structure TaskSpec where
  index : Nat
  row : InputRow
  flagAtStart : Bool
  api : Except ApiExn Cell
  ext : Bool

namespace DebtChecker

/-- The `RowStep` produced by the worker of a task. -/
def stepOf (t : TaskSpec) : RowStep :=
  process_row t.flagAtStart t.index t.row t.api

/-- Whether consuming this completion finds the stop flag raised: either its
own worker set it (a token error, which happens before the future completes
and hence before the loop's `stop_event.is_set()` check at line 187), or an
external interrupt has set it. -/
def trig (t : TaskSpec) : Bool :=
  (stepOf t).setsFlag || t.ext

end DebtChecker

/-- State of the consuming loop of `process_rows_concurrently`:
`processed` is the in-memory buffer `processed_data`, `counter` the processed
counter, `fragments` the checkpoint files written so far (name counter and
contents), `stopped` the loop-visible stop flag, and `recordedLog` a ghost
log of every result ever appended to `processed_data`. -/
structure LoopState where
  processed : List ProcessResult
  counter : Nat
  fragments : List (Nat × List ProcessResult)
  stopped : Bool
  recordedLog : List ProcessResult
deriving DecidableEq

/-- The loop state at entry: empty buffer, zero counter, no fragments. -/
def initState : LoopState :=
  ⟨[], 0, [], false, []⟩

/-- The periodic checkpoint of `process_rows_concurrently` (lines 202-204):
when `counter % save_interval == 0`, `save_temp_data(processed_data.copy(),
counter, ...)` writes one fragment named by `counter` — a no-op when the
buffer is empty (`save_temp_data` lines 212-226 writes nothing for empty
data) — and `processed_data.clear()` empties the buffer. -/
def maybeFlush (interval : Nat) (st : LoopState) : LoopState :=
  if st.counter % interval = 0 then
    if st.processed = [] then st
    else { st with fragments := st.fragments ++ [(st.counter, st.processed)], processed := [] }
  else st

namespace DebtChecker

/-- One iteration of the consuming loop of `debt_checker/utils.py`
(lines 181-204) for the completion of task `t`. The worker's
`stop_event.set()` happens before its future completes, so by the time the
loop's `stop_event.is_set()` check (line 187) runs for this completion, the
task's own flag-set is visible; if the flag is up the loop breaks without
reading the result. Otherwise the result is consumed: a non-`None` result is
appended and counted, and the periodic checkpoint runs. Returns the new state
and whether the loop continues. -/
def consumeOne (interval : Nat) (st : LoopState) (t : TaskSpec) : LoopState × Bool :=
  if st.stopped || trig t then ({ st with stopped := true }, false)
  else
    match (stepOf t).result with
    | some r =>
      (maybeFlush interval
        { st with
          processed := st.processed ++ [r]
          counter := st.counter + 1
          recordedLog := st.recordedLog ++ [r] }, true)
    | none => (maybeFlush interval st, true)

/-- The consuming loop run from a given state over the remaining completions. -/
def runLoopFrom (interval : Nat) : LoopState → List TaskSpec → LoopState
  | st, [] => st
  | st, t :: rest =>
    match consumeOne interval st t with
    | (st2, true) => runLoopFrom interval st2 rest
    | (st2, false) => st2

/-- A full run of the consuming loop of `process_rows_concurrently`
(lines 150-206) over the completions of a batch, in completion order. -/
def runLoop (interval : Nat) (tasks : List TaskSpec) : LoopState :=
  runLoopFrom interval initState tasks

/-- The checkpoint fragments on disk after the run, including the caller's
final `save_temp_data(processed_data, counter, ...)` flush of the unflushed
buffer (`main.py` lines 133-135; §4.2 of the design makes this the caller's
responsibility). -/
def finalFragments (interval : Nat) (tasks : List TaskSpec) : List (Nat × List ProcessResult) :=
  (runLoop interval tasks).fragments ++
    (if (runLoop interval tasks).processed = [] then []
     else [((runLoop interval tasks).counter, (runLoop interval tasks).processed)])

end DebtChecker

namespace TopLevel

/-- The worker function `process_row` of `utils.py` (lines 52-83). Unlike the
`debt_checker` variant it never touches a stop flag: a token-error value is
returned as an ordinary `ProcessResult` (lines 72-74) carrying the sentinel in
`debt_amount`. -/
def process_row (stopProcessing : Bool) (index : Nat) (row : InputRow)
    (api : Except ApiExn Cell) : Option ProcessResult :=
  if stopProcessing then none
  else if row.existing ≠ .na then none
  else
    match api with
    | .ok v =>
      if isTokenError v then some ⟨index, row.number, v, none⟩
      else some ⟨index, row.number, v, none⟩
    | .error (.requestException _) => some ⟨index, row.number, .na, some "NETWORK_ERROR"⟩
    | .error (.otherException _) => some ⟨index, row.number, .na, some "UNKNOWN_ERROR"⟩

/-- One iteration of the consuming loop of `utils.py`
`process_rows_concurrently` (lines 94-121). `stop_processing` is a local
boolean set only in the `result == 'API_ERROR'` branch (line 110); since this
variant's `process_row` returns a `ProcessResult` or `None` and never the
string `'API_ERROR'`, that branch is dead and the flag can never become true. -/
def consumeOne (interval : Nat) (st : LoopState) (res : Option ProcessResult) :
    LoopState × Bool :=
  if st.stopped then (st, false)
  else
    match res with
    | some r =>
      (maybeFlush interval
        { st with
          processed := st.processed ++ [r]
          counter := st.counter + 1
          recordedLog := st.recordedLog ++ [r] }, true)
    | none => (maybeFlush interval st, true)

/-- The consuming loop of the `utils.py` variant run from a given state. -/
def runLoopFrom (interval : Nat) : LoopState → List (Option ProcessResult) → LoopState
  | st, [] => st
  | st, res :: rest =>
    match consumeOne interval st res with
    | (st2, true) => runLoopFrom interval st2 rest
    | (st2, false) => st2

/-- A full run of the `utils.py` consuming loop over a stream of task results
in completion order. -/
def runLoop (interval : Nat) (results : List (Option ProcessResult)) : LoopState :=
  runLoopFrom interval initState results

end TopLevel

/-! ## The reconciler `merge_temp_files`
(`debt_checker/utils.py` lines 229-261, identically `utils.py` lines 126-154) -/

/-- The fragment rows joining to one original row: the rows of the
concatenated fragment table whose (string-coerced) `number` equals the row's. -/
def matchesFor (merged : List ProcessResult) (o : InputRow) : List ProcessResult :=
  merged.filter (fun m => m.number == o.number)

/-- The output rows that `pd.merge(original_df, merged_df, on="number",
how="left")` followed by `fillna` produces for one original row: with no
matching fragment row, one row whose joined `debt_amount` is `NaN`, so
`fillna` keeps the original `Debt Amount`; with matches, one row per matching
fragment row, where `final_df["Debt Amount"] =
final_df["debt_amount"].fillna(final_df["Debt Amount"])` (line 249) takes the
fragment value unless it is absent. -/
def mergeContrib (merged : List ProcessResult) (o : InputRow) : List MergedRow :=
  if (matchesFor merged o).isEmpty then [⟨o.number, o.existing⟩]
  else
    (matchesFor merged o).map
      (fun m => ⟨o.number, if m.debt_amount = .na then o.existing else m.debt_amount⟩)

/-- The left join plus fill of `merge_temp_files`, over the whole input table. -/
def mergeRows (orig : List InputRow) (merged : List ProcessResult) : List MergedRow :=
  orig.flatMap (fun o => mergeContrib merged o)

/-- The function `merge_temp_files`: returns `None` when no fragment files are
found (lines 238-240), otherwise concatenates all fragment rows
(`pd.concat`, line 243) and merges them against the original table. -/
def merge_temp_files (frags : List (List ProcessResult)) (orig : List InputRow) :
    Option (List MergedRow) :=
  match frags with
  | [] => none
  | _ => some (mergeRows orig frags.flatten)

namespace DebtChecker

/-- The final reconciled table of a full pipeline run: the loop's fragments
plus the caller's last flush, merged against the original input table. -/
def finalTableOf (interval : Nat) (tasks : List TaskSpec) (orig : List InputRow) :
    Option (List MergedRow) :=
  merge_temp_files ((finalFragments interval tasks).map (fun f => f.2)) orig

end DebtChecker

/-! ## Invariant of the consuming loop and concrete scenario inputs -/

/-- Invariant of the consuming loop state: the fragments written so far plus
the current buffer are exactly the ghost log of recorded results, fragment
name counters are strictly increasing (so no fragment file ever overwrites
another), and all of them are bounded by the current counter — strictly when
the buffer is non-empty, so the next flush gets a fresh name. -/
def goodState (st : LoopState) : Prop :=
  ((st.fragments.map (fun f => f.2)).flatten ++ st.processed = st.recordedLog)
  ∧ List.Pairwise (· < ·) (st.fragments.map (fun f => f.1))
  ∧ (∀ c ∈ st.fragments.map (fun f => f.1), c ≤ st.counter)
  ∧ (st.processed ≠ [] → ∀ c ∈ st.fragments.map (fun f => f.1), c < st.counter)

/-- Attempt schedule in which the first HTTP attempt raises a transient
exception (for instance a timeout) and the service is healthy from the second
attempt on, answering a record with sum 5. -/
def failSched : Nat → NetOutcome :=
  fun k =>
    if k = 1 then .raises
    else .ok [("status", .jnum 200), ("count", .jnum 1),
              ("records", .jarr [.jobj [("sum", .jstr "5")]])]

/-- Completion stream for the `utils.py` loop in which task 0 classifies to
the credential-error sentinel and task 1 completes afterwards with an amount. -/
def c1TopResults : List (Option ProcessResult) :=
  [TopLevel.process_row false 0 ⟨"111", .na⟩ (.ok (.str "TOKEN_NO_ACCESS")),
   TopLevel.process_row false 1 ⟨"222", .na⟩ (.ok (.num 5))]

/-- Debt-checker run used as a witness: task 0 succeeds, task 1 hits a
credential error (raising the stop flag), task 2 started after the flag. -/
def c1wTasks : List TaskSpec :=
  [⟨0, ⟨"5", .na⟩, false, .ok (.num 3), false⟩,
   ⟨1, ⟨"6", .na⟩, false, .ok (.str "TOKEN_NO_MONEY"), false⟩,
   ⟨2, ⟨"7", .na⟩, true, .ok (.num 9), true⟩]

/-- Input table matching `c1wTasks`. -/
def c1wOrig : List InputRow := [⟨"5", .na⟩, ⟨"6", .na⟩, ⟨"7", .na⟩]

/-- Input with two rows sharing the identifier `"777"`: row 0 unresolved,
row 1 with a pre-existing debt value of 100. -/
def c3Orig : List InputRow := [⟨"777", .na⟩, ⟨"777", .num 100⟩]

/-- Completion stream for `c3Orig`: row 0 is processed and resolves to 50;
row 1 is skipped by `process_row` (existing value present). -/
def c3Tasks : List TaskSpec :=
  [⟨0, ⟨"777", .na⟩, false, .ok (.num 50), false⟩,
   ⟨1, ⟨"777", .num 100⟩, false, .ok (.num 999), false⟩]

/-- Witness run for the skip property: row `"a"` is processed, row `"b"`
carries a pre-existing value 4 and is skipped. -/
def c3wTasks : List TaskSpec :=
  [⟨0, ⟨"a", .na⟩, false, .ok (.num 7), false⟩,
   ⟨1, ⟨"b", .num 4⟩, false, .ok (.num 8), false⟩]

/-- Single-task run whose only classification yields the credential-error
sentinel. -/
def c9Tasks : List TaskSpec :=
  [⟨0, ⟨"1", .na⟩, false, .ok (.str "TOKEN_NO_ACCESS"), false⟩]

/-- Run with one ordinary successful completion, used to exhibit a recorded
result. -/
def c9wTasks : List TaskSpec :=
  [⟨0, ⟨"z", .na⟩, false, .ok (.num 3), false⟩]

/-! ## Helper lemmas -/

/-- The handler chain of the top-level `get_debt_amount` converts every
exception of the try block into a returned value. -/
theorem topLevel_exc_ok (net : NetOutcome) :
    ∃ v, TopLevel.get_debt_amount_exc net = .ok v := by
  unfold TopLevel.get_debt_amount_exc
  cases h : TopLevel.tryBody net with
  | ok v => exact ⟨v, rfl⟩
  | error e => cases e <;> exact ⟨.na, rfl⟩

/-- Because the wrapped callable never raises, the tenacity wrapper always
stops after the first attempt. -/
theorem retryWrapped_one_attempt (sched : Nat → NetOutcome) :
    (retryWrapped 3 (fun k => TopLevel.get_debt_amount_exc (sched k))).2 = 1 := by
  obtain ⟨v, hv⟩ := topLevel_exc_ok (sched 1)
  unfold retryWrapped tenacityGo
  simp [hv]

/-- Every value the debt-checker `get_debt_amount` can return is a number,
one of the two token sentinels, or `None`. -/
theorem dc_handle_cases (data : List (String × JVal)) (v : Cell)
    (h : DebtChecker.handle_api_response data = .ok v) :
    v = .na ∨ v = .str "TOKEN_NO_ACCESS" ∨ v = .str "TOKEN_NO_MONEY" ∨ ∃ q, v = .num q := by
  unfold DebtChecker.handle_api_response at h
  split at h
  · split at h
    · split at h
      · simp only [Except.ok.injEq] at h; exact .inr (.inl h.symm)
      · exact absurd h (by simp)
    · split at h
      · split at h
        · simp only [Except.ok.injEq] at h; exact .inr (.inr (.inl h.symm))
        · exact absurd h (by simp)
      · simp only [Except.ok.injEq] at h; exact .inl h.symm
  · split at h
    · simp only [Except.ok.injEq] at h; exact .inl h.symm
    · split at h
      · split at h
        · simp only [Except.ok.injEq] at h
          exact .inr (.inr (.inr ⟨_, h.symm⟩))
        · simp only [Except.ok.injEq] at h; exact .inl h.symm
        · simp only [Except.ok.injEq] at h; exact .inl h.symm
        · simp only [Except.ok.injEq] at h; exact .inl h.symm
        · exact absurd h (by simp)
      · split at h
        · simp only [Except.ok.injEq] at h
          exact .inr (.inr (.inr ⟨_, h.symm⟩))
        · simp only [Except.ok.injEq] at h; exact .inl h.symm

/-- Case analysis of the debt-checker `get_debt_amount`. -/
theorem dc_get_cases (net : NetOutcome) :
    DebtChecker.get_debt_amount net = .na ∨
    DebtChecker.get_debt_amount net = .str "TOKEN_NO_ACCESS" ∨
    DebtChecker.get_debt_amount net = .str "TOKEN_NO_MONEY" ∨
    ∃ q, DebtChecker.get_debt_amount net = .num q := by
  cases net with
  | raises => exact .inl rfl
  | badJson => exact .inl rfl
  | ok data =>
    have h2 : DebtChecker.get_debt_amount (.ok data)
        = (match DebtChecker.handle_api_response data with
           | .ok v => v
           | .error _ => Cell.na) := rfl
    cases h : DebtChecker.handle_api_response data with
    | ok v =>
      rw [h2, h]
      exact dc_handle_cases data v h
    | error e =>
      rw [h2, h]
      exact .inl rfl

/-- A worker that starts with the stop flag raised returns immediately:
no API call, no result, no flag change. -/
theorem dc_process_row_stopped (i : Nat) (row : InputRow) (api : Except ApiExn Cell) :
    DebtChecker.process_row true i row api = ⟨none, false, false⟩ := rfl

/-- A worker for a row whose debt value is already present skips it:
no API call, no result. -/
theorem dc_process_row_skip (s : Bool) (i : Nat) (row : InputRow) (api : Except ApiExn Cell)
    (h : row.existing ≠ .na) :
    DebtChecker.process_row s i row api = ⟨none, false, false⟩ := by
  cases s <;> simp [DebtChecker.process_row, h]

/-- Behaviour of a worker that neither finds the flag up nor skips: the API
is called and its outcome converted to a tagged result. -/
theorem dc_process_row_run (i : Nat) (row : InputRow) (api : Except ApiExn Cell)
    (he : row.existing = Cell.na) :
    DebtChecker.process_row false i row api =
      match api with
      | .ok v =>
        if isTokenError v then ⟨some ⟨i, row.number, v, none⟩, true, true⟩
        else ⟨some ⟨i, row.number, v, none⟩, false, true⟩
      | .error (.requestException _) =>
        ⟨some ⟨i, row.number, .na, some "NETWORK_ERROR"⟩, false, true⟩
      | .error (.otherException _) =>
        ⟨some ⟨i, row.number, .na, some "UNKNOWN_ERROR"⟩, false, true⟩ := by
  simp [DebtChecker.process_row, he]

/-- Result of a worker that neither finds the flag up nor skips. -/
theorem dc_process_row_run_result (i : Nat) (row : InputRow) (api : Except ApiExn Cell)
    (he : row.existing = Cell.na) :
    (DebtChecker.process_row false i row api).result =
      some (match api with
        | .ok v => ⟨i, row.number, v, none⟩
        | .error (.requestException _) => ⟨i, row.number, .na, some "NETWORK_ERROR"⟩
        | .error (.otherException _) => ⟨i, row.number, .na, some "UNKNOWN_ERROR"⟩) := by
  rw [dc_process_row_run i row api he]
  rcases api with e | v
  · cases e <;> rfl
  · by_cases ht : isTokenError v = true <;> simp [ht]

/-- Anatomy of a produced result: it carries the task's index and number, the
row had no existing value, and the flag was down at worker entry. -/
theorem dc_process_row_some (s : Bool) (i : Nat) (row : InputRow) (api : Except ApiExn Cell)
    (p : ProcessResult) (h : (DebtChecker.process_row s i row api).result = some p) :
    p.index = i ∧ p.number = row.number ∧ row.existing = .na ∧ s = false := by
  cases s with
  | true => exact absurd h (by simp [DebtChecker.process_row])
  | false =>
    by_cases he : row.existing = .na
    · rw [dc_process_row_run_result i row api he] at h
      simp only [Option.some.injEq] at h
      subst h
      refine ⟨?_, ?_, he, rfl⟩ <;>
        (rcases api with e | v; · cases e <;> rfl
         · rfl)
    · rw [dc_process_row_skip false i row api he] at h
      exact absurd h (by simp)

/-- A result produced without raising the stop flag never carries a
token-error sentinel. -/
theorem dc_process_row_no_flag_no_token (s : Bool) (i : Nat) (row : InputRow)
    (api : Except ApiExn Cell) (p : ProcessResult)
    (h : (DebtChecker.process_row s i row api).result = some p)
    (hf : (DebtChecker.process_row s i row api).setsFlag = false) :
    isTokenError p.debt_amount = false := by
  cases s with
  | true => exact absurd h (by simp [DebtChecker.process_row])
  | false =>
    by_cases he : row.existing = .na
    · rw [dc_process_row_run_result i row api he] at h
      simp only [Option.some.injEq] at h
      subst h
      rw [dc_process_row_run i row api he] at hf
      rcases api with e | v
      · cases e <;> simp [isTokenError]
      · by_cases ht : isTokenError v = true
        · simp [ht] at hf
        · simpa using ht
    · rw [dc_process_row_skip false i row api he] at h
      exact absurd h (by simp)

/-- The periodic checkpoint never changes the stop flag. -/
theorem maybeFlush_stopped (interval : Nat) (st : LoopState) :
    (maybeFlush interval st).stopped = st.stopped := by
  unfold maybeFlush
  split
  · split <;> rfl
  · rfl

/-- The periodic checkpoint never changes the ghost log. -/
theorem maybeFlush_recordedLog (interval : Nat) (st : LoopState) :
    (maybeFlush interval st).recordedLog = st.recordedLog := by
  unfold maybeFlush
  split
  · split <;> rfl
  · rfl

/-- Characterisation of what the debt-checker consuming loop records: exactly
the non-`None` results of the longest prefix of completions on which the stop
flag stays down. -/
theorem dc_runLoopFrom_recordedLog (interval : Nat) :
    ∀ (tasks : List TaskSpec) (st : LoopState), st.stopped = false →
      (DebtChecker.runLoopFrom interval st tasks).recordedLog
        = st.recordedLog
          ++ (tasks.takeWhile (fun t => !DebtChecker.trig t)).filterMap
              (fun t => (DebtChecker.stepOf t).result) := by
  intro tasks
  induction tasks with
  | nil => intro st _; simp [DebtChecker.runLoopFrom]
  | cons t rest ih =>
    intro st hst
    by_cases ht : DebtChecker.trig t = true
    · have hbreak : DebtChecker.consumeOne interval st t = ({ st with stopped := true }, false) := by
        unfold DebtChecker.consumeOne
        rw [hst, ht]
        rfl
      unfold DebtChecker.runLoopFrom
      rw [hbreak]
      simp [List.takeWhile_cons, ht]
    · have ht' : DebtChecker.trig t = false := by
        cases h : DebtChecker.trig t
        · rfl
        · exact absurd h ht
      have hgo : DebtChecker.consumeOne interval st t
          = (maybeFlush interval
              (match (DebtChecker.stepOf t).result with
               | some r =>
                 { st with
                   processed := st.processed ++ [r]
                   counter := st.counter + 1
                   recordedLog := st.recordedLog ++ [r] }
               | none => st), true) := by
        unfold DebtChecker.consumeOne
        rw [hst, ht']
        cases (DebtChecker.stepOf t).result <;> rfl
      unfold DebtChecker.runLoopFrom
      rw [hgo]
      cases hr : (DebtChecker.stepOf t).result with
      | none =>
        show (DebtChecker.runLoopFrom interval (maybeFlush interval st) rest).recordedLog = _
        rw [ih _ (by rw [maybeFlush_stopped]; exact hst)]
        rw [maybeFlush_recordedLog]
        simp [List.takeWhile_cons, ht', hr]
      | some r =>
        show (DebtChecker.runLoopFrom interval
            (maybeFlush interval
              { st with
                processed := st.processed ++ [r]
                counter := st.counter + 1
                recordedLog := st.recordedLog ++ [r] }) rest).recordedLog = _
        rw [ih _ (by rw [maybeFlush_stopped]; exact hst)]
        rw [maybeFlush_recordedLog]
        simp [List.takeWhile_cons, ht', hr]

/-- What the full loop records. -/
theorem dc_runLoop_recordedLog (interval : Nat) (tasks : List TaskSpec) :
    (DebtChecker.runLoop interval tasks).recordedLog
      = (tasks.takeWhile (fun t => !DebtChecker.trig t)).filterMap
          (fun t => (DebtChecker.stepOf t).result) := by
  unfold DebtChecker.runLoop
  rw [dc_runLoopFrom_recordedLog interval tasks initState rfl]
  rfl

/-- Every recorded result of a run was produced by one of the run's tasks,
with the stop trigger down at that completion. -/
theorem dc_recordedLog_sources (interval : Nat) (tasks : List TaskSpec)
    (p : ProcessResult) (hp : p ∈ (DebtChecker.runLoop interval tasks).recordedLog) :
    ∃ t ∈ tasks, (DebtChecker.stepOf t).result = some p ∧ DebtChecker.trig t = false := by
  rw [dc_runLoop_recordedLog] at hp
  obtain ⟨t, ht, hres⟩ := List.mem_filterMap.mp hp
  refine ⟨t, (List.takeWhile_sublist _).mem ht, hres, ?_⟩
  have := List.mem_takeWhile_imp ht
  simpa using this

/-- The loop state at entry satisfies the checkpoint invariant. -/
theorem initState_good : goodState initState := by
  refine ⟨rfl, ?_, ?_, ?_⟩ <;> simp [initState]

/-- The periodic checkpoint preserves the checkpoint invariant. -/
theorem maybeFlush_good (interval : Nat) (st : LoopState) (h : goodState st) :
    goodState (maybeFlush interval st) := by
  obtain ⟨h1, h2, h3, h4⟩ := h
  unfold maybeFlush
  by_cases hc : st.counter % interval = 0
  · rw [if_pos hc]
    by_cases hp : st.processed = []
    · rw [if_pos hp]
      exact ⟨h1, h2, h3, h4⟩
    · rw [if_neg hp]
      refine ⟨?_, ?_, ?_, ?_⟩
      · show ((st.fragments ++ [(st.counter, st.processed)]).map (fun f => f.2)).flatten ++ [] = _
        rw [List.map_append, List.flatten_append]
        simpa using h1
      · show List.Pairwise (· < ·) ((st.fragments ++ [(st.counter, st.processed)]).map (fun f => f.1))
        rw [List.map_append, List.pairwise_append]
        refine ⟨h2, by simp, ?_⟩
        intro a ha b hb
        simp only [List.map_cons, List.map_nil, List.mem_singleton] at hb
        subst hb
        exact h4 hp a ha
      · intro c hc2
        simp only [List.map_append, List.mem_append, List.map_cons, List.map_nil,
          List.mem_singleton] at hc2
        rcases hc2 with hc2 | hc2
        · exact h3 c hc2
        · simp [hc2]
      · intro hne
        exact absurd rfl hne
  · rw [if_neg hc]
    exact ⟨h1, h2, h3, h4⟩

/-- One iteration of the debt-checker consuming loop preserves the checkpoint
invariant. -/
theorem dc_consumeOne_good (interval : Nat) (st : LoopState) (t : TaskSpec)
    (h : goodState st) : goodState (DebtChecker.consumeOne interval st t).1 := by
  obtain ⟨h1, h2, h3, h4⟩ := h
  unfold DebtChecker.consumeOne
  by_cases hstop : (st.stopped || DebtChecker.trig t) = true
  · rw [if_pos hstop]
    exact ⟨h1, h2, h3, h4⟩
  · rw [if_neg hstop]
    cases hr : (DebtChecker.stepOf t).result with
    | none =>
      exact maybeFlush_good interval st ⟨h1, h2, h3, h4⟩
    | some r =>
      show goodState (maybeFlush interval _)
      apply maybeFlush_good
      refine ⟨?_, h2, ?_, ?_⟩
      · show (st.fragments.map (fun f => f.2)).flatten ++ (st.processed ++ [r])
            = st.recordedLog ++ [r]
        rw [← List.append_assoc, h1]
      · intro c hcm
        exact Nat.le_succ_of_le (h3 c hcm)
      · intro _ c hcm
        exact Nat.lt_succ_of_le (h3 c hcm)

/-- The consuming loop preserves the checkpoint invariant. -/
theorem dc_runLoopFrom_good (interval : Nat) :
    ∀ (tasks : List TaskSpec) (st : LoopState), goodState st →
      goodState (DebtChecker.runLoopFrom interval st tasks) := by
  intro tasks
  induction tasks with
  | nil => intro st h; exact h
  | cons t rest ih =>
    intro st h
    unfold DebtChecker.runLoopFrom
    rcases hco : DebtChecker.consumeOne interval st t with ⟨st2, b⟩
    have hg : goodState st2 := by
      have := dc_consumeOne_good interval st t h
      rw [hco] at this
      exact this
    cases b
    · exact hg
    · exact ih st2 hg

/-- The final loop state of any run satisfies the checkpoint invariant. -/
theorem dc_runLoop_good (interval : Nat) (tasks : List TaskSpec) :
    goodState (DebtChecker.runLoop interval tasks) :=
  dc_runLoopFrom_good interval tasks initState initState_good

/-- The rows of all fragments on disk after the final flush are exactly the
recorded results of the run. -/
theorem dc_finalFragments_flatten (interval : Nat) (tasks : List TaskSpec) :
    ((DebtChecker.finalFragments interval tasks).map (fun f => f.2)).flatten
      = (DebtChecker.runLoop interval tasks).recordedLog := by
  obtain ⟨h1, _, _, _⟩ := dc_runLoop_good interval tasks
  unfold DebtChecker.finalFragments
  by_cases hp : (DebtChecker.runLoop interval tasks).processed = []
  · rw [if_pos hp]
    rw [hp] at h1
    simpa using h1
  · rw [if_neg hp]
    rw [List.map_append, List.flatten_append]
    simpa using h1

/-- Membership in the join-match list. -/
theorem mem_matchesFor (merged : List ProcessResult) (o : InputRow) (m : ProcessResult) :
    m ∈ matchesFor merged o ↔ m ∈ merged ∧ m.number = o.number := by
  unfold matchesFor
  rw [List.mem_filter]
  simp

/-- Membership in the merged output, reduced to the per-row contributions of
the left join. -/
theorem mem_mergeRows (orig : List InputRow) (merged : List ProcessResult) (r : MergedRow) :
    r ∈ mergeRows orig merged ↔ ∃ o ∈ orig, r ∈ mergeContrib merged o := by
  unfold mergeRows
  exact List.mem_flatMap

/-- A row with no joining fragment row contributes itself unchanged. -/
theorem mergeContrib_no_match (merged : List ProcessResult) (o : InputRow)
    (h : matchesFor merged o = []) :
    mergeContrib merged o = [⟨o.number, o.existing⟩] := by
  unfold mergeContrib
  rw [if_pos (List.isEmpty_iff.mpr h)]

/-- Every joining fragment row produces one output row, filled from the
fragment value unless that value is absent. -/
theorem mem_mergeContrib_of_match (merged : List ProcessResult) (o : InputRow)
    (m : ProcessResult) (hm : m ∈ matchesFor merged o) :
    (⟨o.number, if m.debt_amount = .na then o.existing else m.debt_amount⟩ : MergedRow)
      ∈ mergeContrib merged o := by
  unfold mergeContrib
  rw [if_neg (by
    intro he
    rw [List.isEmpty_iff.mp he] at hm
    exact absurd hm (by simp))]
  exact List.mem_map.mpr ⟨m, hm, rfl⟩

/-- Origin of every output row of one contribution: either the original row
unchanged, or a fill from a joining non-absent fragment value. -/
theorem mem_mergeContrib_elim (merged : List ProcessResult) (o : InputRow) (r : MergedRow)
    (h : r ∈ mergeContrib merged o) :
    r.number = o.number ∧
      (r.debtAmount = o.existing ∨
        ∃ m ∈ merged, m.number = o.number ∧ m.debt_amount ≠ .na ∧ r.debtAmount = m.debt_amount) := by
  unfold mergeContrib at h
  by_cases he : (matchesFor merged o).isEmpty
  · rw [if_pos he] at h
    simp only [List.mem_singleton] at h
    subst h
    exact ⟨rfl, .inl rfl⟩
  · rw [if_neg he] at h
    obtain ⟨m, hm, hr⟩ := List.mem_map.mp h
    subst hr
    refine ⟨rfl, ?_⟩
    by_cases hna : m.debt_amount = .na
    · exact .inl (by simp [hna])
    · obtain ⟨hmem, hnum⟩ := (mem_matchesFor merged o m).mp hm
      exact .inr ⟨m, hmem, hnum, hna, by simp [hna]⟩

/-- Number of output rows one original row generates: one per joining fragment
row, or a single row when nothing joins. -/
theorem mergeContrib_length (merged : List ProcessResult) (o : InputRow) :
    (mergeContrib merged o).length = max 1 (matchesFor merged o).length := by
  unfold mergeContrib
  by_cases he : (matchesFor merged o).isEmpty
  · rw [if_pos he, List.isEmpty_iff.mp he]
    rfl
  · rw [if_neg he, List.length_map]
    have h1 : 1 ≤ (matchesFor merged o).length := by
      rcases hl : matchesFor merged o with _ | ⟨a, l⟩
      · rw [hl] at he
        exact absurd rfl he
      · simp
    omega

/-- Total size of the merged output. -/
theorem mergeRows_length (orig : List InputRow) (merged : List ProcessResult) :
    (mergeRows orig merged).length
      = (orig.map (fun o => max 1 (matchesFor merged o).length)).sum := by
  unfold mergeRows
  induction orig with
  | nil => rfl
  | cons o rest ih =>
    rw [List.flatMap_cons, List.length_append, List.map_cons, List.sum_cons,
      mergeContrib_length, ih]

/-- A successful merge returns exactly the left join of the original table
against the concatenation of all fragments. -/
theorem merge_temp_files_some (frags : List (List ProcessResult)) (orig : List InputRow)
    (out : List MergedRow) (h : merge_temp_files frags orig = some out) :
    out = mergeRows orig frags.flatten := by
  cases frags with
  | nil => exact absurd h (by simp [merge_temp_files])
  | cons f fs =>
    have h2 : merge_temp_files (f :: fs) orig = some (mergeRows orig (f :: fs).flatten) := rfl
    rw [h2] at h
    exact (Option.some.inj h).symm

/-! ## Claim theorems -/

/-- C1 (amended): in the `debt_checker` pipeline, the consuming loop records
exactly the results of the completions consumed strictly before the first one
at which the stop flag is visible (a credential-error task's own flag-set, or
an external interrupt) and nothing afterwards; a task that starts with the
flag set makes no API call and produces no result; and every row of the final
merged table either keeps an original value or is filled from a recorded
result. (The `utils.py` variant of the loop falsifies the claim as stated:
see the counterexample.) -/
theorem c1_halt_on_credential_amended (interval : Nat) (tasks : List TaskSpec)
    (orig : List InputRow) :
    (DebtChecker.runLoop interval tasks).recordedLog
        = (tasks.takeWhile (fun t => !DebtChecker.trig t)).filterMap
            (fun t => (DebtChecker.stepOf t).result)
    ∧ (∀ t : TaskSpec, t.flagAtStart = true →
        DebtChecker.stepOf t = ⟨none, false, false⟩)
    ∧ (∀ r ∈ (DebtChecker.finalTableOf interval tasks orig).getD [],
        (∃ o ∈ orig, r.number = o.number ∧ r.debtAmount = o.existing)
        ∨ (∃ p ∈ (DebtChecker.runLoop interval tasks).recordedLog,
            p.number = r.number ∧ r.debtAmount = p.debt_amount)) := by
  refine ⟨dc_runLoop_recordedLog interval tasks, ?_, ?_⟩
  · intro t ht
    unfold DebtChecker.stepOf
    rw [ht]
    rfl
  · intro r hr
    unfold DebtChecker.finalTableOf at hr
    cases hm : merge_temp_files ((DebtChecker.finalFragments interval tasks).map (fun f => f.2))
        orig with
    | none => rw [hm] at hr; exact absurd hr (by simp)
    | some out =>
      rw [hm] at hr
      simp only [Option.getD_some] at hr
      rw [merge_temp_files_some _ orig out hm] at hr
      obtain ⟨o, ho, hro⟩ := (mem_mergeRows orig _ r).mp hr
      obtain ⟨hnum, hcase⟩ := mem_mergeContrib_elim _ o r hro
      rcases hcase with hkeep | ⟨m, hmem, hmn, _, hval⟩
      · exact .inl ⟨o, ho, hnum, hkeep⟩
      · refine .inr ⟨m, ?_, hmn.trans hnum.symm, hval⟩
        rw [← dc_finalFragments_flatten interval tasks]
        exact hmem

/-- Witness for C1: a concrete run whose second completion raises the flag
and whose third task started with the flag set. -/
theorem c1_halt_witness :
    (DebtChecker.runLoop 2 c1wTasks).recordedLog
        = (c1wTasks.takeWhile (fun t => !DebtChecker.trig t)).filterMap
            (fun t => (DebtChecker.stepOf t).result)
    ∧ DebtChecker.stepOf ⟨2, ⟨"7", .na⟩, true, .ok (.num 9), true⟩ = ⟨none, false, false⟩ :=
  ⟨(c1_halt_on_credential_amended 2 c1wTasks c1wOrig).1,
   (c1_halt_on_credential_amended 2 c1wTasks c1wOrig).2.1 _ rfl⟩

/-- Counterexample to C1 as stated: in the `utils.py` variant of
`process_rows_concurrently`, a credential-error classification neither sets
the stop flag nor stops the loop — the completion observed after it is still
recorded, and the credential result itself is recorded as an ordinary row. -/
theorem c1_halt_counterexample :
    (TopLevel.runLoop 10 c1TopResults).recordedLog
        = [⟨0, "111", .str "TOKEN_NO_ACCESS", none⟩, ⟨1, "222", .num 5, none⟩]
    ∧ (TopLevel.runLoop 10 c1TopResults).stopped = false :=
  ⟨rfl, rfl⟩

/-- C2: the tenacity decorator of `api_client.py` can never retry, because
`get_debt_amount` catches every exception internally and returns `None`; the
decorated call makes exactly one attempt for every network schedule, and at
the failing input — a transient exception on the first attempt with the
service healthy afterwards — it returns `None` after one attempt instead of
retrying to obtain the available amount. -/
theorem c2_retry_never_fires :
    (∀ sched : Nat → NetOutcome,
      (retryWrapped 3 (fun k => TopLevel.get_debt_amount_exc (sched k))).2 = 1)
    ∧ retryWrapped 3 (fun k => TopLevel.get_debt_amount_exc (failSched k)) = (.ok Cell.na, 1) :=
  ⟨retryWrapped_one_attempt, rfl⟩

/-- C3 (amended): a record whose debt value is already present is skipped —
its worker makes no API call and returns no result, it never appears among
the recorded results, and, provided no task with the same identifier was
processed, the reconciler's contribution for it is exactly its original
value. (Without that proviso the claim fails: the join is by identifier, so a
processed duplicate identifier overwrites the pre-existing value — see the
counterexample.) -/
theorem c3_idempotent_skip_amended (interval : Nat) (tasks : List TaskSpec) (o : InputRow)
    (_ho : o.existing ≠ .na)
    (hall : ∀ t ∈ tasks, t.row.number = o.number → t.row.existing ≠ .na) :
    (∀ t ∈ tasks, t.row.number = o.number →
        (DebtChecker.stepOf t).result = none ∧ (DebtChecker.stepOf t).apiCalled = false)
    ∧ (∀ p ∈ (DebtChecker.runLoop interval tasks).recordedLog, p.number ≠ o.number)
    ∧ mergeContrib (((DebtChecker.finalFragments interval tasks).map (fun f => f.2)).flatten) o
        = [⟨o.number, o.existing⟩] := by
  have h2 : ∀ p ∈ (DebtChecker.runLoop interval tasks).recordedLog, p.number ≠ o.number := by
    intro p hp heq
    obtain ⟨t, htm, hres, _⟩ := dc_recordedLog_sources interval tasks p hp
    obtain ⟨_, hpnum, hna, _⟩ := dc_process_row_some t.flagAtStart t.index t.row t.api p hres
    exact absurd hna (hall t htm (hpnum.symm.trans heq))
  refine ⟨?_, h2, ?_⟩
  · intro t htm hn
    have hs := dc_process_row_skip t.flagAtStart t.index t.row t.api (hall t htm hn)
    unfold DebtChecker.stepOf
    rw [hs]
    exact ⟨rfl, rfl⟩
  · apply mergeContrib_no_match
    rw [List.eq_nil_iff_forall_not_mem]
    intro m hm
    obtain ⟨hmem, hnum⟩ := (mem_matchesFor _ o m).mp hm
    rw [dc_finalFragments_flatten interval tasks] at hmem
    exact h2 m hmem hnum

/-- Witness for C3: the task for identifier `"b"` (pre-existing value 4) is
skipped, and the reconciler's contribution for its row is that value
unchanged. -/
theorem c3_idempotent_skip_witness :
    (DebtChecker.stepOf ⟨1, ⟨"b", .num 4⟩, false, .ok (.num 8), false⟩).result = none
    ∧ (DebtChecker.stepOf ⟨1, ⟨"b", .num 4⟩, false, .ok (.num 8), false⟩).apiCalled = false
    ∧ mergeContrib (((DebtChecker.finalFragments 1 c3wTasks).map (fun f => f.2)).flatten)
        ⟨"b", .num 4⟩ = [⟨"b", .num 4⟩] := by
  obtain ⟨h1, _, h3⟩ :=
    c3_idempotent_skip_amended 1 c3wTasks ⟨"b", .num 4⟩ (by decide) (by decide)
  have ht : (⟨1, ⟨"b", .num 4⟩, false, .ok (.num 8), false⟩ : TaskSpec) ∈ c3wTasks := by
    unfold c3wTasks
    exact List.mem_cons_of_mem _ (List.mem_cons_self _ _)
  exact ⟨(h1 _ ht rfl).1, (h1 _ ht rfl).2, h3⟩

/-- Counterexample to C3 as stated: with two rows sharing identifier `"777"`
— row 0 unresolved, row 1 carrying pre-existing value 100 — the processed
result 50 of row 0 joins to both rows, so the final merged table shows 50 for
the row whose existing value was 100: the pre-existing value is not
preserved. -/
theorem c3_idempotent_skip_counterexample :
    DebtChecker.finalTableOf 1 c3Tasks c3Orig
        = some [⟨"777", .num 50⟩, ⟨"777", .num 50⟩]
    ∧ c3Orig = [⟨"777", .na⟩, ⟨"777", .num 100⟩]
    ∧ Cell.num 50 ≠ Cell.num 100 :=
  ⟨rfl, rfl, by decide⟩

/-- C4: for every run of the consuming loop, the rows written to checkpoint
fragments plus the unflushed buffer at loop exit are exactly the results
recorded during the run — in order, so nothing is lost and nothing is written
twice — and fragment name counters strictly increase, so no fragment file
overwrites another. -/
theorem c4_checkpoint_completeness (interval : Nat) (tasks : List TaskSpec) :
    ((DebtChecker.runLoop interval tasks).fragments.map (fun f => f.2)).flatten
        ++ (DebtChecker.runLoop interval tasks).processed
      = (DebtChecker.runLoop interval tasks).recordedLog
    ∧ List.Pairwise (· < ·)
        ((DebtChecker.runLoop interval tasks).fragments.map (fun f => f.1)) := by
  obtain ⟨h1, hp2, _, _⟩ := dc_runLoop_good interval tasks
  exact ⟨h1, hp2⟩

/-- C5: in the merged table, each output row's debt amount is the joined
checkpointed value when a non-absent one joins to its identifier, otherwise
the pre-existing value (absent if that was absent); every joining non-absent
checkpointed value is written to the output even over a pre-existing value,
and a row nothing joins to keeps its original value. -/
theorem c5_merge_precedence (frags : List (List ProcessResult)) (orig : List InputRow)
    (out : List MergedRow) (hout : merge_temp_files frags orig = some out) :
    (∀ r ∈ out, ∃ o ∈ orig, r.number = o.number ∧
        (r.debtAmount = o.existing ∨
          ∃ m ∈ frags.flatten, m.number = o.number ∧ m.debt_amount ≠ .na ∧
            r.debtAmount = m.debt_amount))
    ∧ (∀ o ∈ orig, ∀ m ∈ frags.flatten, m.number = o.number → m.debt_amount ≠ .na →
        (⟨o.number, m.debt_amount⟩ : MergedRow) ∈ out)
    ∧ (∀ o ∈ orig, (∀ m ∈ frags.flatten, m.number ≠ o.number) →
        (⟨o.number, o.existing⟩ : MergedRow) ∈ out) := by
  rw [merge_temp_files_some frags orig out hout]
  refine ⟨?_, ?_, ?_⟩
  · intro r hr
    obtain ⟨o, ho, hro⟩ := (mem_mergeRows orig _ r).mp hr
    obtain ⟨hnum, hcase⟩ := mem_mergeContrib_elim _ o r hro
    rcases hcase with hkeep | ⟨m, hmem, hmn, hna, hval⟩
    · exact ⟨o, ho, hnum, .inl hkeep⟩
    · exact ⟨o, ho, hnum, .inr ⟨m, hmem, hmn, hna, hval⟩⟩
  · intro o ho m hmem hnum hna
    have hmm : m ∈ matchesFor frags.flatten o := (mem_matchesFor _ o m).mpr ⟨hmem, hnum⟩
    have h := mem_mergeContrib_of_match frags.flatten o m hmm
    rw [if_neg hna] at h
    exact (mem_mergeRows orig _ _).mpr ⟨o, ho, h⟩
  · intro o ho hnone
    have hempty : matchesFor frags.flatten o = [] := by
      rw [List.eq_nil_iff_forall_not_mem]
      intro m hm
      obtain ⟨hmem, hnum⟩ := (mem_matchesFor _ o m).mp hm
      exact hnone m hmem hnum
    refine (mem_mergeRows orig _ _).mpr ⟨o, ho, ?_⟩
    rw [mergeContrib_no_match _ o hempty]
    exact List.mem_singleton.mpr rfl

/-- Witness for C5: one fragment row with value 7 joins identifier `"1"`,
whose original value was absent; the merged output carries 7. -/
theorem c5_merge_precedence_witness :
    merge_temp_files [[⟨0, "1", .num 7, none⟩]] [⟨"1", .na⟩] = some [⟨"1", .num 7⟩]
    ∧ (⟨"1", Cell.num 7⟩ : MergedRow) ∈ ([⟨"1", Cell.num 7⟩] : List MergedRow) := by
  have h := c5_merge_precedence [[⟨0, "1", .num 7, none⟩]] [⟨"1", .na⟩] [⟨"1", .num 7⟩] rfl
  exact ⟨rfl, h.2.1 ⟨"1", .na⟩ (by decide) ⟨0, "1", .num 7, none⟩ (by decide) rfl (by decide)⟩

/-- C6 (amended): the reconciler's merge is total — it never crashes — and
produces one output row per pair of an original row and a joining fragment
row (one bare row when nothing joins): with overlapping identifiers across
fragments an original row is duplicated once per match, not emitted exactly
once. -/
theorem c6_one_row_per_match (frags : List (List ProcessResult)) (orig : List InputRow)
    (h : frags ≠ []) :
    ∃ out, merge_temp_files frags orig = some out ∧
      out.length = (orig.map (fun o => max 1 (matchesFor frags.flatten o).length)).sum := by
  cases frags with
  | nil => exact absurd rfl h
  | cons f fs =>
    exact ⟨mergeRows orig (f :: fs).flatten, rfl, mergeRows_length orig _⟩

/-- Witness for C6: a single fragment row joining a single original row gives
one output row, matching the length formula. -/
theorem c6_one_row_witness :
    merge_temp_files [[⟨0, "9", .num 1, none⟩]] [⟨"9", .na⟩] = some [⟨"9", .num 1⟩]
    ∧ ([⟨"9", Cell.num 1⟩] : List MergedRow).length
        = ([(⟨"9", Cell.na⟩ : InputRow)].map
            (fun o => max 1
              (matchesFor ([[⟨0, "9", .num 1, none⟩]] : List (List ProcessResult)).flatten
                o).length)).sum := by
  obtain ⟨out, h1, h2⟩ :=
    c6_one_row_per_match [[⟨0, "9", .num 1, none⟩]] [⟨"9", .na⟩] (by simp)
  have hc : merge_temp_files [[⟨0, "9", .num 1, none⟩]] [⟨"9", .na⟩]
      = some [⟨"9", .num 1⟩] := rfl
  rw [hc] at h1
  rw [← Option.some.inj h1] at h2
  exact ⟨hc, h2⟩

/-- Counterexample to C6 as stated: two fragments with overlapping identifier
`"1"` produce two output rows for the single original row, not exactly one
row per input record. -/
theorem c6_one_row_counterexample :
    merge_temp_files [[⟨0, "1", .num 5, none⟩], [⟨1, "1", .num 7, none⟩]] [⟨"1", .na⟩]
        = some [⟨"1", .num 5⟩, ⟨"1", .num 7⟩]
    ∧ ([⟨"1", Cell.num 5⟩, ⟨"1", Cell.num 7⟩] : List MergedRow).length
        ≠ ([⟨"1", Cell.na⟩] : List InputRow).length :=
  ⟨rfl, by decide⟩

/-- C7 (amended): the reconciler fills a row's debt-amount column with the
joined fragment value whenever that value is non-absent — overwriting a
pre-existing original value — and keeps the original value exactly when every
joining fragment value is absent (or nothing joins). -/
theorem c7_no_overwrite_amended (frags : List (List ProcessResult)) (orig : List InputRow)
    (out : List MergedRow) (hout : merge_temp_files frags orig = some out) :
    (∀ o ∈ orig, ∀ m ∈ frags.flatten, m.number = o.number → m.debt_amount ≠ .na →
        (⟨o.number, m.debt_amount⟩ : MergedRow) ∈ out)
    ∧ (∀ o ∈ orig, (∀ m ∈ frags.flatten, m.number = o.number → m.debt_amount = .na) →
        (⟨o.number, o.existing⟩ : MergedRow) ∈ out) := by
  rw [merge_temp_files_some frags orig out hout]
  constructor
  · intro o ho m hmem hnum hna
    have hmm : m ∈ matchesFor frags.flatten o := (mem_matchesFor _ o m).mpr ⟨hmem, hnum⟩
    have h := mem_mergeContrib_of_match frags.flatten o m hmm
    rw [if_neg hna] at h
    exact (mem_mergeRows orig _ _).mpr ⟨o, ho, h⟩
  · intro o ho hallna
    refine (mem_mergeRows orig _ _).mpr ⟨o, ho, ?_⟩
    rcases hl : matchesFor frags.flatten o with _ | ⟨m, ms⟩
    · rw [mergeContrib_no_match _ o hl]
      exact List.mem_singleton.mpr rfl
    · have hmm : m ∈ matchesFor frags.flatten o := by
        rw [hl]
        exact List.mem_cons_self _ _
      obtain ⟨hmem, hnum⟩ := (mem_matchesFor _ o m).mp hmm
      have h := mem_mergeContrib_of_match frags.flatten o m hmm
      rw [if_pos (hallna m hmem hnum)] at h
      exact h

/-- Witness for C7: a non-absent fragment value 9 joining identifier `"4"`
is written to the output although the original value was 2. -/
theorem c7_no_overwrite_witness :
    (⟨"4", Cell.num 9⟩ : MergedRow) ∈ ([⟨"4", Cell.num 9⟩] : List MergedRow)
    ∧ merge_temp_files [[⟨0, "4", .num 9, none⟩]] [⟨"4", .num 2⟩] = some [⟨"4", .num 9⟩] := by
  have h := c7_no_overwrite_amended [[⟨0, "4", .num 9, none⟩]] [⟨"4", .num 2⟩]
    [⟨"4", .num 9⟩] rfl
  exact ⟨h.1 ⟨"4", .num 2⟩ (by decide) ⟨0, "4", .num 9, none⟩ (by decide) rfl (by decide), rfl⟩

/-- Counterexample to C7 as stated: the original row for identifier `"1"`
carries the pre-existing value 100, a checkpointed row for the same
identifier carries 200, and the merged output shows 200 — the pre-existing
value does not appear unchanged. -/
theorem c7_no_overwrite_counterexample :
    merge_temp_files [[⟨0, "1", .num 200, none⟩]] [⟨"1", .num 100⟩] = some [⟨"1", .num 200⟩]
    ∧ Cell.num 200 ≠ Cell.num 100 :=
  ⟨rfl, by decide⟩

/-- C8: an exception from the API call inside a row task never propagates out
of `process_row`: a `RequestException` is converted to a result tagged
`NETWORK_ERROR`, any other exception to one tagged `UNKNOWN_ERROR`, and in
every remaining case (flag already up, or row skipped before the call) the
task returns `None` without having called the API. -/
theorem c8_task_exceptions_converted (idx : Nat) (n : String) (msg : String) :
    (DebtChecker.process_row false idx ⟨n, .na⟩ (.error (.requestException msg))).result
        = some ⟨idx, n, .na, some "NETWORK_ERROR"⟩
    ∧ (DebtChecker.process_row false idx ⟨n, .na⟩ (.error (.otherException msg))).result
        = some ⟨idx, n, .na, some "UNKNOWN_ERROR"⟩
    ∧ ∀ (stopSet : Bool) (row : InputRow) (e : ApiExn),
        ((DebtChecker.process_row stopSet idx row (.error e)).result = none
          ∧ (DebtChecker.process_row stopSet idx row (.error e)).apiCalled = false)
        ∨ (DebtChecker.process_row stopSet idx row (.error e)).result
            = some ⟨idx, row.number, .na,
                some (match e with
                  | .requestException _ => "NETWORK_ERROR"
                  | .otherException _ => "UNKNOWN_ERROR")⟩ := by
  refine ⟨rfl, rfl, ?_⟩
  intro stopSet row e
  cases stopSet with
  | false =>
    by_cases he : row.existing = .na
    · right
      rw [dc_process_row_run_result idx row (.error e) he]
      cases e <;> rfl
    · left
      rw [dc_process_row_skip false idx row _ he]
      exact ⟨rfl, rfl⟩
  | true =>
    left
    exact ⟨rfl, rfl⟩

/-- C9 (amended): on a credential-error classification, `process_row` returns
one `ProcessResult` whose `debt_amount` field holds the sentinel string, whose
`error` field is `None` (not a `CREDENTIAL_ERROR` tag), and which sets the
stop flag; but because the consuming loop observes the flag before reading
that completion, no recorded result of any run ever carries a credential
sentinel — the pipeline records zero credential-error results, not one. -/
theorem c9_credential_result_amended (idx : Nat) (n : String) (tok : Cell)
    (htok : isTokenError tok = true) :
    DebtChecker.process_row false idx ⟨n, .na⟩ (.ok tok)
        = ⟨some ⟨idx, n, tok, none⟩, true, true⟩
    ∧ ∀ (interval : Nat) (tasks : List TaskSpec),
        ∀ p ∈ (DebtChecker.runLoop interval tasks).recordedLog,
          isTokenError p.debt_amount = false := by
  constructor
  · rw [dc_process_row_run idx ⟨n, .na⟩ (.ok tok) rfl]
    simp [htok]
  · intro interval tasks p hp
    obtain ⟨t, _, hres, htrig⟩ := dc_recordedLog_sources interval tasks p hp
    have hsf : (DebtChecker.stepOf t).setsFlag = false := by
      unfold DebtChecker.trig at htrig
      simp only [Bool.or_eq_false_iff] at htrig
      exact htrig.1
    exact dc_process_row_no_flag_no_token _ _ _ _ p hres hsf

/-- Witness for C9: process_row converts the `TOKEN_NO_MONEY` outcome into
the sentinel-carrying result with `error = None`, and a concrete recorded
result of an ordinary run carries no sentinel. -/
theorem c9_credential_result_witness :
    DebtChecker.process_row false 0 ⟨"1", .na⟩ (.ok (.str "TOKEN_NO_MONEY"))
        = ⟨some ⟨0, "1", .str "TOKEN_NO_MONEY", none⟩, true, true⟩
    ∧ isTokenError (⟨0, "z", Cell.num 3, none⟩ : ProcessResult).debt_amount = false := by
  have h := c9_credential_result_amended 0 "1" (.str "TOKEN_NO_MONEY") rfl
  refine ⟨h.1, ?_⟩
  have hm : (⟨0, "z", Cell.num 3, none⟩ : ProcessResult)
      ∈ (DebtChecker.runLoop 10 c9wTasks).recordedLog := by decide
  exact h.2 10 c9wTasks _ hm

/-- Counterexample to C9 as stated: in a run whose only classification yields
`TOKEN_NO_ACCESS`, the worker produces the credential result — with the
sentinel in `debt_amount` and `error = None`, not a set error tag — yet the
loop records nothing: zero credential results are recorded, not exactly one. -/
theorem c9_credential_result_counterexample :
    (DebtChecker.runLoop 10 c9Tasks).recordedLog = []
    ∧ (DebtChecker.stepOf ⟨0, ⟨"1", .na⟩, false, .ok (.str "TOKEN_NO_ACCESS"), false⟩).result
        = some ⟨0, "1", .str "TOKEN_NO_ACCESS", none⟩
    ∧ (⟨0, "1", Cell.str "TOKEN_NO_ACCESS", none⟩ : ProcessResult).error = none :=
  ⟨rfl, rfl, rfl⟩

/-- C10: the debt-checker `get_debt_amount` is total — for every network
outcome and JSON body it returns a number, one of the two token sentinels, or
`None` (the fourth outcome, outside the spec's three-variant taxonomy), never
another value and never an exception; malformed JSON, missing keys, a
non-numeric sum field, a non-200 status and a network error all yield `None`;
and the top-level variant's wrapped call never delivers an exception to the
tenacity retry wrapper. -/
theorem c10_get_debt_amount_total :
    (∀ net : NetOutcome,
      DebtChecker.get_debt_amount net = .na
      ∨ DebtChecker.get_debt_amount net = .str "TOKEN_NO_ACCESS"
      ∨ DebtChecker.get_debt_amount net = .str "TOKEN_NO_MONEY"
      ∨ ∃ q, DebtChecker.get_debt_amount net = .num q)
    ∧ DebtChecker.get_debt_amount .raises = .na
    ∧ DebtChecker.get_debt_amount .badJson = .na
    ∧ DebtChecker.get_debt_amount (.ok []) = .na
    ∧ DebtChecker.get_debt_amount
        (.ok [("status", .jnum 200), ("count", .jnum 1),
              ("records", .jarr [.jobj [("sum", .jstr "abc")]])]) = .na
    ∧ DebtChecker.get_debt_amount (.ok [("status", .jnum 500)]) = .na
    ∧ (∀ net : NetOutcome, ∃ v, TopLevel.get_debt_amount_exc net = .ok v) :=
  ⟨dc_get_cases, rfl, rfl, rfl, rfl, rfl, topLevel_exc_ok⟩
